import Mathlib

/-!
Verification of the USB_ls_x servo-control codec.

Shallow embedding of the packet codec and command layer of
`robot_servo_control.py` / `robot_servo_control_usb.py` (namespace `Robot`;
the two files contain byte-for-byte identical codec code) and of
`ls5_servo_control.py` (namespace `LS5`).

Modelling conventions:
- Python byte strings / bytearrays are `List Nat` whose elements are intended
  to lie in [0, 256); theorems that depend on Python's `bytearray` range check
  carry explicit `< 256` hypotheses.
- Python's arbitrary-precision `int` is `Int` (or `Nat` where the source value
  is manifestly non-negative); the masking expression `value & 0xFFFF` on a
  Python int is embedded as `value % 65536` (`Int.emod`), its exact semantics.
- Python floats are modelled as rationals; `int(x)` is truncation toward zero
  (`pyInt`) and `round(x)` is round-half-to-even (`pyRound`), matching Python.
-/

namespace USBlsx

/-- Python `int(x)` applied to a (rational-modelled) float: truncation toward
zero. -/
def pyInt (q : ℚ) : ℤ :=
  if 0 ≤ q then ⌊q⌋ else ⌈q⌉

/-- Python `round(x)` applied to a (rational-modelled) float: round half to
even. -/
def pyRound (q : ℚ) : ℤ :=
  if q - (⌊q⌋ : ℚ) < 1 / 2 then ⌊q⌋
  else if (1 : ℚ) / 2 < q - (⌊q⌋ : ℚ) then ⌊q⌋ + 1
  else if ⌊q⌋ % 2 = 0 then ⌊q⌋ else ⌊q⌋ + 1

/-- Motor type constant from `RobotServoController`. -/
def MOTORTYPE_AX12 : ℕ := 0

/-- Motor type constant from `RobotServoController`. -/
def MOTORTYPE_AX18 : ℕ := 1

/-- Motor type constant from `RobotServoController`. -/
def MOTORTYPE_MX28 : ℕ := 2

/-- Motor type constant from `RobotServoController`. -/
def MOTORTYPE_MX64 : ℕ := 3

/-- Motor type constant from `RobotServoController`. -/
def MOTORTYPE_MX106 : ℕ := 4

/-- Motor type constant from `RobotServoController`. -/
def MOTORTYPE_XL320 : ℕ := 5

/-- The fixed baud-rate table `BAUDRATES` shared by both controller classes. -/
def BAUDRATES : List ℕ := [2000000, 1000000, 500000, 222222, 117647, 100000, 57142, 9615]

/-- Register start address for goal position (`GOAL_POSITION_ADDR`). -/
def GOAL_POSITION_ADDR : ℕ := 30

/-- Decode a 2-byte little-endian sequence back to its numeric value
(specification-side helper, used to state length-field properties). -/
def decodeLE2 : List ℕ → ℕ
  | [a, b] => a + 256 * b
  | _ => 0

/-- Recompute a Dynamixel Protocol 1.0 checksum from a finished frame: 255
minus (the sum of every byte after the two 0xFF header bytes and before the
stored checksum byte, mod 256). Specification-side helper. -/
def recomputeChecksum (frame : List ℕ) : ℕ :=
  255 - ((frame.drop 2).dropLast.sum % 256)

namespace Robot

/-- Embedding of `_get_little_endian_bytes`: `struct.pack(LE-u16, value & 0xFFFF)` on an
arbitrary Python int. -/
def get_little_endian_bytes (value : ℤ) : List ℕ :=
  [(value % 65536).toNat % 256, (value % 65536).toNat / 256]

/-- Embedding of `_get_baud_rate_index`: `BAUDRATES.index(baud_rate)` with the `ValueError`
handler falling back to `BAUDRATES.index(57142)`. -/
def get_baud_rate_index (baud_rate : ℕ) : ℕ :=
  if baud_rate ∈ BAUDRATES then BAUDRATES.indexOf baud_rate
  else BAUDRATES.indexOf 57142

/-- Embedding of `_create_dynamixel_sync_write_packet`: header `FF FF FE len 83 addr dl`,
then `id :: data` per motor, then the checksum byte
`(255 - (crc & 0xFF)) & 0xFF` where `crc` sums `FE`, the length byte, `83`,
the address, the data length, and every id/data byte. -/
def create_dynamixel_sync_write_packet (motor_ids : List ℕ)
    (motor_data : List (List ℕ)) (start_address : ℕ) (data_length : ℕ) :
    List ℕ :=
  let num_motors := motor_ids.length
  let packet_length := (data_length + 1) * num_motors + 4
  let body := (motor_ids.zip motor_data).flatMap (fun e => e.1 :: e.2)
  let crc := 0xFE + packet_length + 0x83 + start_address + data_length + body.sum
  [0xFF, 0xFF, 0xFE, packet_length, 0x83, start_address, data_length] ++ body ++
    [(255 - crc % 256) % 256]

/-- Embedding of `_create_luci_uart_packet`: `bytearray([0, baud_index])` followed by the
Dynamixel packet bytes. -/
def create_luci_uart_packet (baud_rate : ℕ) (uart_packet : List ℕ) : List ℕ :=
  0 :: get_baud_rate_index baud_rate :: uart_packet

/-- Embedding of `_create_luci_packet`: short form `[0,0,2]` for modes 4/5, otherwise
prefix, module number (LE16), three padding zeros, `len(packet0)+5` (LE16),
mode byte, `len(packet0)` (LE16), `0` (LE16), then `packet0`. -/
def create_luci_packet (module_number : ℕ) (mode : ℕ) (packet0 : List ℕ) :
    List ℕ :=
  if mode = 4 ∨ mode = 5 then [0, 0, 2]
  else
    [0, 0, 2] ++ get_little_endian_bytes (module_number : ℤ) ++ [0, 0, 0] ++
      get_little_endian_bytes ((packet0.length + 5 : ℕ) : ℤ) ++ [mode] ++
      get_little_endian_bytes ((packet0.length : ℕ) : ℤ) ++
      get_little_endian_bytes 0 ++ packet0

/-- Embedding of `_degrees_to_motor_value`: unit conversion by motor family, using Python
`int()` truncation and no clamping. -/
def degrees_to_motor_value (degrees : ℚ) (motor_type : ℕ)
    (is_position : Bool) : ℤ :=
  if motor_type = MOTORTYPE_AX12 ∨ motor_type = MOTORTYPE_AX18 then
    if is_position then pyInt (degrees / 300 * 1023)
    else pyInt (degrees / 114 * 1023)
  else
    if is_position then pyInt (degrees / 360 * 4095)
    else pyInt (degrees / 117 * 1023)

/-- Outcome of `send_servo_positions`: the early `not connected` return, the
early length-check return, a propagated Python `IndexError` from the
conversion loop, or a transmitted LUCI packet. -/
inductive SendOutcome where
  | notConnected : SendOutcome
  | invalidArgument : SendOutcome
  | indexError : SendOutcome
  | sent : List ℕ → SendOutcome
deriving DecidableEq

/-- The conversion loop of `send_servo_positions`: for each
`i in range(len(motor_ids))` it reads `motor_types[i]`, `positions[i]`,
`velocities[i]` (an out-of-range index raises, modelled as `none`) and emits
`pos_bytes ++ vel_bytes`. -/
def build_motor_data : List ℕ → List ℕ → List ℚ → List ℚ →
    Option (List (List ℕ))
  | [], _, _, _ => some []
  | _ :: ids, t :: ts, p :: ps, v :: vs =>
    match build_motor_data ids ts ps vs with
    | none => none
    | some rest =>
      some ((get_little_endian_bytes (degrees_to_motor_value p t true) ++
             get_little_endian_bytes (degrees_to_motor_value v t false)) :: rest)
  | _ :: _, _, _, _ => none

/-- Embedding of `send_servo_positions`: the connected check, then the chained comparison
`len(ids) != len(types) != len(positions) != len(velocities)` exactly as
Python evaluates it (pairwise on adjacent operands), then conversion, frame
building, wrapping and transmission. -/
def send_servo_positions (connected : Bool) (motor_ids : List ℕ)
    (motor_types : List ℕ) (positions_degrees : List ℚ)
    (velocities_rpm : List ℚ) (baud_rate : ℕ) : SendOutcome :=
  if !connected then .notConnected
  else if motor_ids.length ≠ motor_types.length ∧
          motor_types.length ≠ positions_degrees.length ∧
          positions_degrees.length ≠ velocities_rpm.length then .invalidArgument
  else
    match build_motor_data motor_ids motor_types positions_degrees velocities_rpm with
    | none => .indexError
    | some motor_data =>
      let dynamixel_packet :=
        create_dynamixel_sync_write_packet motor_ids motor_data GOAL_POSITION_ADDR 4
      let luci_uart_packet := create_luci_uart_packet baud_rate dynamixel_packet
      let luci_packet := create_luci_packet 254 0 luci_uart_packet
      .sent luci_packet

end Robot

namespace LS5

/-- Embedding of `get_lh_bytes`: `bytes([x & 0xFF, (x >> 8) & 0xFF])`. -/
def get_lh_bytes (x : ℕ) : List ℕ := [x % 256, x / 256 % 256]

/-- Embedding of `build_write_packet`: Dynamixel Protocol 1.0 single WRITE frame
`FF FF (id & 0xFF) (len & 0xFF) 03 addr data... checksum` with
`len = len(params) + 2` and
`checksum = (255 - ((id + len + 3 + sum(params)) & 0xFF)) & 0xFF`. -/
def build_write_packet (servo_id : ℕ) (address : ℕ) (data : List ℕ) : List ℕ :=
  let params := address :: data
  let length := params.length + 2
  let checksum_val := (servo_id + length + 0x03 + params.sum) % 256
  [0xFF, 0xFF, servo_id % 256, length % 256, 0x03] ++ params ++
    [(255 - checksum_val) % 256]

/-- Embedding of `create_luci_general_packet`:
`[0,0,2, mb_lo, mb_hi, 0,0,0, len_lo, len_hi] ++ payload` where the length
bytes encode `len(payload)`. -/
def create_luci_general_packet (mbnum : ℕ) (payload : List ℕ) : List ℕ :=
  [0, 0, 2] ++ get_lh_bytes mbnum ++ [0, 0, 0] ++ get_lh_bytes payload.length ++
    payload

/-- Embedding of `angle_deg_to_ax_position`: `round((deg / 300.0) * 1023.0)` clamped to
`[0, 1023]` via `max(0, min(1023, pos))`. -/
def angle_deg_to_ax_position (angle_deg : ℚ) : ℤ :=
  max 0 (min 1023 (pyRound (angle_deg / 300 * 1023)))

end LS5

/-! ## Helper lemmas -/

lemma decodeLE2_le_int (v : ℤ) :
    (decodeLE2 (Robot.get_little_endian_bytes v) : ℤ) = v % 65536 := by
  have h0 : 0 ≤ v % 65536 := Int.emod_nonneg v (by norm_num)
  have hxv : (((v % 65536).toNat : ℤ)) = v % 65536 := Int.toNat_of_nonneg h0
  show (((v % 65536).toNat % 256 + 256 * ((v % 65536).toNat / 256) : ℕ) : ℤ) = v % 65536
  rw [Nat.mod_add_div]
  exact hxv

lemma le_bytes_nat (n : ℕ) :
    Robot.get_little_endian_bytes (n : ℤ) = [n % 65536 % 256, n % 65536 / 256] := by
  have h : ((n : ℤ) % 65536).toNat = n % 65536 := by omega
  simp [Robot.get_little_endian_bytes, h]

lemma zip_flatMap_sum (ids : List ℕ) (data : List (List ℕ)) :
    ids.length = data.length →
    ((ids.zip data).flatMap (fun e => e.1 :: e.2)).sum =
      ids.sum + (data.map List.sum).sum := by
  induction ids generalizing data with
  | nil =>
    intro h
    cases data with
    | nil => simp
    | cons d ds => simp at h
  | cons i ids ih =>
    intro h
    cases data with
    | nil => simp at h
    | cons d ds =>
      have hrec := ih ds (by simpa using h)
      simp [hrec]
      omega

lemma zip_flatMap_length (ids : List ℕ) (data : List (List ℕ)) :
    ids.length = data.length →
    ((ids.zip data).flatMap (fun e => e.1 :: e.2)).length =
      (data.map (fun d => d.length + 1)).sum := by
  induction ids generalizing data with
  | nil =>
    intro h
    cases data with
    | nil => simp
    | cons d ds => simp at h
  | cons i ids ih =>
    intro h
    cases data with
    | nil => simp at h
    | cons d ds =>
      have hrec := ih ds (by simpa using h)
      simp [hrec]
      omega

lemma getLast_append_single (l : List ℕ) (c : ℕ) :
    (l ++ [c]).getLast? = some c := by
  simp [List.getLast?_concat]

lemma getLast_cons2 (a b c : ℕ) (pre : List ℕ) :
    (a :: b :: (pre ++ [c])).getLast? = some c :=
  getLast_append_single (a :: b :: pre) c

lemma recompute_cons2 (a b c : ℕ) (pre : List ℕ) :
    recomputeChecksum (a :: b :: (pre ++ [c])) = 255 - pre.sum % 256 := by
  unfold recomputeChecksum
  have h1 : (a :: b :: (pre ++ [c])).drop 2 = pre ++ [c] := rfl
  rw [h1]
  simp [List.dropLast_concat]

lemma drop8_cons (a₁ a₂ a₃ a₄ a₅ a₆ a₇ a₈ : ℕ) (l : List ℕ) :
    List.drop 8 (a₁ :: a₂ :: a₃ :: a₄ :: a₅ :: a₆ :: a₇ :: a₈ :: l) = l := rfl

lemma take2_cons (a₁ a₂ : ℕ) (l : List ℕ) :
    List.take 2 (a₁ :: a₂ :: l) = [a₁, a₂] := rfl

lemma sync_packet_eq (ids : List ℕ) (data : List (List ℕ)) (addr dl : ℕ) :
    Robot.create_dynamixel_sync_write_packet ids data addr dl =
      255 :: 255 ::
        (([254, (dl + 1) * ids.length + 4, 131, addr, dl] ++
            (ids.zip data).flatMap (fun e => e.1 :: e.2)) ++
          [(255 - (254 + ((dl + 1) * ids.length + 4) + 131 + addr + dl +
              ((ids.zip data).flatMap (fun e => e.1 :: e.2)).sum) % 256) % 256]) := rfl

lemma write_packet_eq (servo_id addr : ℕ) (data : List ℕ) :
    LS5.build_write_packet servo_id addr data =
      255 :: 255 ::
        (([servo_id % 256, (data.length + 1 + 2) % 256, 3] ++ (addr :: data)) ++
          [(255 - (servo_id + (data.length + 1 + 2) + 3 + (addr + data.sum)) % 256) % 256]) := rfl

lemma d2m_AX12_pos (d : ℚ) :
    Robot.degrees_to_motor_value d MOTORTYPE_AX12 true = pyInt (d / 300 * 1023) := by
  unfold Robot.degrees_to_motor_value
  rw [if_pos (Or.inl rfl : MOTORTYPE_AX12 = MOTORTYPE_AX12 ∨ MOTORTYPE_AX12 = MOTORTYPE_AX18)]
  rfl

lemma d2m_AX12_vel (d : ℚ) :
    Robot.degrees_to_motor_value d MOTORTYPE_AX12 false = pyInt (d / 114 * 1023) := by
  unfold Robot.degrees_to_motor_value
  rw [if_pos (Or.inl rfl : MOTORTYPE_AX12 = MOTORTYPE_AX12 ∨ MOTORTYPE_AX12 = MOTORTYPE_AX18)]
  rfl

lemma pyInt_zero : pyInt 0 = 0 := by
  unfold pyInt
  rw [if_pos le_rfl]
  exact Int.floor_zero

lemma d2m_zero_pos : Robot.degrees_to_motor_value 0 MOTORTYPE_AX12 true = 0 := by
  rw [d2m_AX12_pos, show ((0 : ℚ) / 300 * 1023) = 0 by norm_num, pyInt_zero]

lemma d2m_zero_vel : Robot.degrees_to_motor_value 0 MOTORTYPE_AX12 false = 0 := by
  rw [d2m_AX12_vel, show ((0 : ℚ) / 114 * 1023) = 0 by norm_num, pyInt_zero]

lemma le_zero : Robot.get_little_endian_bytes 0 = [0, 0] := rfl

lemma pyInt_ax_90 : pyInt ((90 : ℚ) / 300 * 1023) = 306 := by
  rw [show ((90 : ℚ) / 300 * 1023) = 3069 / 10 by norm_num]
  unfold pyInt
  rw [if_pos (by norm_num : (0 : ℚ) ≤ 3069 / 10)]
  norm_num

lemma pyRound_ax_90 : pyRound ((90 : ℚ) / 300 * 1023) = 307 := by
  rw [show ((90 : ℚ) / 300 * 1023) = 3069 / 10 by norm_num]
  unfold pyRound
  rw [show ⌊(3069 / 10 : ℚ)⌋ = 306 by norm_num]
  norm_num

lemma pyInt_ax_neg10 : pyInt ((-10 : ℚ) / 300 * 1023) = -34 := by
  rw [show ((-10 : ℚ) / 300 * 1023) = -341 / 10 by norm_num]
  unfold pyInt
  rw [if_neg (by norm_num : ¬ (0 : ℚ) ≤ -341 / 10)]
  rw [Int.ceil_eq_iff]
  norm_num

lemma pyInt_ax_10000 : pyInt ((10000 : ℚ) / 300 * 1023) = 34100 := by
  rw [show ((10000 : ℚ) / 300 * 1023) = 34100 by norm_num]
  unfold pyInt
  rw [if_pos (by norm_num : (0 : ℚ) ≤ 34100)]
  norm_num

lemma pyRound_ax_neg10 : pyRound ((-10 : ℚ) / 300 * 1023) = -34 := by
  rw [show ((-10 : ℚ) / 300 * 1023) = -341 / 10 by norm_num]
  unfold pyRound
  rw [show ⌊(-341 / 10 : ℚ)⌋ = -35 by norm_num]
  norm_num

lemma pyRound_ax_10000 : pyRound ((10000 : ℚ) / 300 * 1023) = 34100 := by
  rw [show ((10000 : ℚ) / 300 * 1023) = 34100 by norm_num]
  unfold pyRound
  rw [show ⌊(34100 : ℚ)⌋ = 34100 by norm_num]
  norm_num

/-! ## Claim theorems -/

/-- Claim C2: every frame built by the SYNC_WRITE builder (non-empty entry
list, matching data lengths, byte-range inputs) and by the single-WRITE
builder stores as its final byte the checksum
`255 - ((targetId + length + instruction + sum of parameter bytes) % 256)`,
and recomputing the checksum over everything after the two `0xFF` header
bytes reproduces that stored byte. -/
theorem claim_C2_checksum_invariant :
    (∀ (motor_ids : List ℕ) (motor_data : List (List ℕ)) (addr dl : ℕ),
      motor_ids ≠ [] →
      motor_ids.length = motor_data.length →
      (∀ i ∈ motor_ids, i < 256) →
      (∀ d ∈ motor_data, d.length = dl) →
      (∀ d ∈ motor_data, ∀ b ∈ d, b < 256) →
      addr < 256 → dl < 256 → (dl + 1) * motor_ids.length + 4 < 256 →
      (Robot.create_dynamixel_sync_write_packet motor_ids motor_data addr dl).getLast? =
        some (255 - ((254 + ((dl + 1) * motor_ids.length + 4) + 131 +
          (addr + dl + motor_ids.sum + (motor_data.map List.sum).sum)) % 256)) ∧
      (Robot.create_dynamixel_sync_write_packet motor_ids motor_data addr dl).getLast? =
        some (recomputeChecksum
          (Robot.create_dynamixel_sync_write_packet motor_ids motor_data addr dl))) ∧
    (∀ (servo_id addr : ℕ) (data : List ℕ),
      addr < 256 → (∀ b ∈ data, b < 256) →
      (LS5.build_write_packet servo_id addr data).getLast? =
        some (255 - ((servo_id + (data.length + 1 + 2) + 3 + (addr + data.sum)) % 256)) ∧
      (LS5.build_write_packet servo_id addr data).getLast? =
        some (recomputeChecksum (LS5.build_write_packet servo_id addr data))) := by
  constructor
  · intro ids data addr dl hne hlen hids hdl hbytes ha hd hp
    have hsum := zip_flatMap_sum ids data hlen
    rw [sync_packet_eq, getLast_cons2, recompute_cons2]
    rw [hsum]
    constructor
    · congr 1
      generalize (dl + 1) * ids.length + 4 = L
      omega
    · congr 1
      simp only [List.sum_append, List.sum_cons, List.sum_nil]
      rw [hsum]
      generalize (dl + 1) * ids.length + 4 = L
      omega
  · intro sid addr data ha hbytes
    rw [write_packet_eq, getLast_cons2, recompute_cons2]
    constructor
    · congr 1
      omega
    · congr 1
      simp only [List.sum_append, List.sum_cons, List.sum_nil]
      omega

/-- Witness for claim C2: the checksum invariant evaluated on a concrete
SYNC_WRITE frame (one motor, data `00 00 00 00`, address 30, length 4) and on
the concrete WRITE frame of the spec (id 1, address 4, data `08`). -/
theorem claim_C2_checksum_invariant_witness :
    (Robot.create_dynamixel_sync_write_packet [1] [[0, 0, 0, 0]] 30 4).getLast? =
      some 82 ∧
    (LS5.build_write_packet 1 4 [8]).getLast? = some 235 := by
  constructor
  · have h := (claim_C2_checksum_invariant.1 [1] [[0, 0, 0, 0]] 30 4
      (by decide) (by decide) (by decide) (by decide) (by decide)
      (by decide) (by decide) (by decide)).1
    simpa using h
  · have h := (claim_C2_checksum_invariant.2 1 4 [8] (by decide) (by decide)).1
    simpa using h

/-- Claim C5 counterexample: for the bus frame `[255, 255]` at baud 57142,
`subPacket0` does not have length `1 + len(busFrame)` and its first byte is
not the resolved baud index (the code prepends `[0, baudIndex]`, not
`[baudIndex]`). -/
theorem claim_C5_counterexample :
    (Robot.create_luci_uart_packet 57142 [255, 255]).length ≠
      1 + ([255, 255] : List ℕ).length ∧
    (Robot.create_luci_uart_packet 57142 [255, 255])[0]? ≠
      some (Robot.get_baud_rate_index 57142) := by decide

/-- Claim C5 (amended): `subPacket0` is a zero byte, then the resolved baud
index, then the bus frame: its length is `2 + len(busFrame)`, byte 0 is `0`,
byte 1 is the baud index, and the rest is the frame. -/
theorem claim_C5_uart_layout (baud_rate : ℕ) (bus_frame : List ℕ) :
    (Robot.create_luci_uart_packet baud_rate bus_frame).length = 2 + bus_frame.length ∧
    (Robot.create_luci_uart_packet baud_rate bus_frame)[0]? = some 0 ∧
    (Robot.create_luci_uart_packet baud_rate bus_frame)[1]? =
      some (Robot.get_baud_rate_index baud_rate) ∧
    (Robot.create_luci_uart_packet baud_rate bus_frame).drop 2 = bus_frame := by
  refine ⟨?_, ?_, ?_, rfl⟩
  · simp [Robot.create_luci_uart_packet]
    omega
  · simp [Robot.create_luci_uart_packet]
  · simp [Robot.create_luci_uart_packet]

/-- Claim C6 counterexample: on the empty entry list the SYNC_WRITE builder
does not fail; it returns the well-formed 8-byte frame
`FF FF FE 04 83 1E 04 58`. -/
theorem claim_C6_counterexample :
    Robot.create_dynamixel_sync_write_packet [] [] 30 4 =
      [255, 255, 254, 4, 131, 30, 4, 88] ∧
    Robot.create_dynamixel_sync_write_packet [] [] 30 4 ≠ [] := by decide

/-- Claim C6 (amended): the SYNC_WRITE builder performs no validation: for
every byte-range input with as many data entries as ids, including the empty
entry list and entries whose data length differs from `perMotorDataLength`,
it returns a frame of length `8 + sum of (1 + len(data_i))`. -/
theorem claim_C6_no_validation (motor_ids : List ℕ) (motor_data : List (List ℕ))
    (addr dl : ℕ)
    (hlen : motor_ids.length = motor_data.length)
    (_hids : ∀ i ∈ motor_ids, i < 256)
    (_hbytes : ∀ d ∈ motor_data, ∀ b ∈ d, b < 256)
    (_ha : addr < 256) (_hd : dl < 256)
    (_hp : (dl + 1) * motor_ids.length + 4 < 256) :
    (Robot.create_dynamixel_sync_write_packet motor_ids motor_data addr dl).length =
      8 + (motor_data.map (fun d => d.length + 1)).sum := by
  have h := zip_flatMap_length motor_ids motor_data hlen
  rw [sync_packet_eq]
  simp [h]
  omega

/-- Witness for claim C6 (amended): the builder returns an 8-byte frame on the
empty entry list and a 10-byte frame on a one-entry list whose data length 1
differs from the declared per-motor data length 4. -/
theorem claim_C6_no_validation_witness :
    (Robot.create_dynamixel_sync_write_packet [] [] 30 4).length = 8 ∧
    (Robot.create_dynamixel_sync_write_packet [1] [[5]] 30 4).length = 10 := by
  constructor
  · have h := claim_C6_no_validation [] [] 30 4 (by decide) (by decide)
      (by decide) (by decide) (by decide) (by decide)
    simpa using h
  · have h := claim_C6_no_validation [1] [[5]] 30 4 (by decide) (by decide)
      (by decide) (by decide) (by decide) (by decide)
    simpa using h

/-- Claim C7 counterexample: the standalone (direct-framing) envelope builder
writes `len(payload)` into the length field, not `len(payload) + 5`: over the
8-byte WRITE frame of the spec the field decodes to 8, not 13. -/
theorem claim_C7_counterexample :
    decodeLE2 (((LS5.create_luci_general_packet 254
        [255, 255, 1, 4, 3, 4, 8, 235]).drop 8).take 2) = 8 ∧
    decodeLE2 (((LS5.create_luci_general_packet 254
        [255, 255, 1, 4, 3, 4, 8, 235]).drop 8).take 2) ≠
      ([255, 255, 1, 4, 3, 4, 8, 235] : List ℕ).length + 5 := by decide

/-- Claim C7 (amended): the TCP-gateway envelope builder writes
`totalLength = len(subPacket0) + 5` for every non-short-form envelope, while
the standalone direct-framing builder writes the length field as
`len(payload)` with no `+ 5`. -/
theorem claim_C7_total_length_field :
    (∀ (module_number mode : ℕ) (packet0 : List ℕ),
      ¬(mode = 4 ∨ mode = 5) → packet0.length + 5 < 65536 →
      decodeLE2 (((Robot.create_luci_packet module_number mode packet0).drop 8).take 2) =
        packet0.length + 5) ∧
    (∀ (mbnum : ℕ) (payload : List ℕ), payload.length < 65536 →
      decodeLE2 (((LS5.create_luci_general_packet mbnum payload).drop 8).take 2) =
        payload.length) := by
  constructor
  · intro mb mode p0 hmode hlen
    unfold Robot.create_luci_packet
    rw [if_neg hmode]
    simp only [le_bytes_nat, List.cons_append, List.nil_append, List.append_assoc]
    rw [drop8_cons, take2_cons]
    simp only [decodeLE2]
    omega
  · intro mb payload hlen
    unfold LS5.create_luci_general_packet LS5.get_lh_bytes
    simp only [List.cons_append, List.nil_append, List.append_assoc]
    rw [drop8_cons, take2_cons]
    simp only [decodeLE2]
    omega

/-- Witness for claim C7 (amended): both length-field equations evaluated on
concrete envelopes. -/
theorem claim_C7_total_length_field_witness :
    decodeLE2 (((Robot.create_luci_packet 254 0 [0, 6, 255]).drop 8).take 2) = 8 ∧
    decodeLE2 (((LS5.create_luci_general_packet 254 [255, 255, 1]).drop 8).take 2) = 3 := by
  constructor
  · have h := claim_C7_total_length_field.1 254 0 [0, 6, 255] (by decide) (by decide)
    simpa using h
  · have h := claim_C7_total_length_field.2 254 [255, 255, 1] (by decide)
    simpa using h

/-- Claim C8: each of the 8 table baud rates resolves to its position in the
table, and every baud rate not in the table resolves (without failing) to
index 6, the 57142 entry. -/
theorem claim_C8_baud_index_resolution :
    (Robot.get_baud_rate_index 2000000 = 0 ∧ Robot.get_baud_rate_index 1000000 = 1 ∧
     Robot.get_baud_rate_index 500000 = 2 ∧ Robot.get_baud_rate_index 222222 = 3 ∧
     Robot.get_baud_rate_index 117647 = 4 ∧ Robot.get_baud_rate_index 100000 = 5 ∧
     Robot.get_baud_rate_index 57142 = 6 ∧ Robot.get_baud_rate_index 9615 = 7) ∧
    ∀ b : ℕ, b ∉ BAUDRATES → Robot.get_baud_rate_index b = 6 := by
  constructor
  · decide
  · intro b hb
    unfold Robot.get_baud_rate_index
    rw [if_neg hb]
    decide

/-- Witness for claim C8: the out-of-table rate 4000000 resolves to index 6. -/
theorem claim_C8_baud_index_resolution_witness :
    Robot.get_baud_rate_index 4000000 = 6 :=
  claim_C8_baud_index_resolution.2 4000000 (by decide)

/-- Claim C9: `send_servo_positions` on a connection whose connected flag is
false returns the NotConnected failure for every input, before any frame is
built or transmitted. -/
theorem claim_C9_not_connected (motor_ids motor_types : List ℕ)
    (positions_degrees velocities_rpm : List ℚ) (baud_rate : ℕ) :
    Robot.send_servo_positions false motor_ids motor_types positions_degrees
      velocities_rpm baud_rate = Robot.SendOutcome.notConnected := rfl

/-- Claim C1: the chained Python comparison
`len(ids) != len(types) != len(positions) != len(velocities)` does not reject
every unequal-length combination: with lengths (1, 1, 2, 2) the first adjacent
pair is equal, so the guard passes and a frame is built and transmitted
instead of failing with InvalidArgument. -/
theorem claim_C1_chained_length_check :
    Robot.send_servo_positions true [1] [MOTORTYPE_AX12] [0, 0] [0, 0] 57142 =
      Robot.SendOutcome.sent
        [0, 0, 2, 254, 0, 0, 0, 0, 20, 0, 0, 15, 0, 0, 0,
         0, 6, 255, 255, 254, 9, 131, 30, 4, 1, 0, 0, 0, 0, 82] := by
  have hb : Robot.build_motor_data [1] [MOTORTYPE_AX12] [0, 0] [0, 0] =
      some [[0, 0, 0, 0]] := by
    simp [Robot.build_motor_data, d2m_zero_pos, d2m_zero_vel, le_zero]
  unfold Robot.send_servo_positions
  rw [hb]
  norm_num
  decide

/-- Claim C3 counterexample: the TCP/USB controller's converter does not
round: at 90 degrees (AX family, position) it yields 306, not the claimed
round(90/300*1023) = 307. -/
theorem claim_C3_counterexample :
    Robot.degrees_to_motor_value 90 MOTORTYPE_AX12 true = 306 ∧
    Robot.degrees_to_motor_value 90 MOTORTYPE_AX12 true ≠ 307 := by
  have h : Robot.degrees_to_motor_value 90 MOTORTYPE_AX12 true = 306 := by
    rw [d2m_AX12_pos, pyInt_ax_90]
  exact ⟨h, by rw [h]; decide⟩

/-- Claim C3 (amended): the standalone script's converter rounds to nearest
and yields 307 at 90 degrees, while the TCP/USB controller's converter
truncates toward zero and yields 306. -/
theorem claim_C3_round_vs_truncate :
    LS5.angle_deg_to_ax_position 90 = 307 ∧
    Robot.degrees_to_motor_value 90 MOTORTYPE_AX12 true = 306 := by
  constructor
  · unfold LS5.angle_deg_to_ax_position
    rw [pyRound_ax_90]
    decide
  · rw [d2m_AX12_pos, pyInt_ax_90]

/-- Claim C4: at the claim's own boundary inputs the TCP/USB controller's
converter does not clamp: it returns -34 at -10 degrees and 34100 at 10000
degrees (AX family, position), outside the 0..1023 range promised by its
docstring; only the standalone script's converter clamps as claimed. -/
theorem claim_C4_no_clamping :
    Robot.degrees_to_motor_value (-10) MOTORTYPE_AX12 true = -34 ∧
    Robot.degrees_to_motor_value 10000 MOTORTYPE_AX12 true = 34100 ∧
    LS5.angle_deg_to_ax_position (-10) = 0 ∧
    LS5.angle_deg_to_ax_position 10000 = 1023 := by
  refine ⟨?_, ?_, ?_, ?_⟩
  · rw [d2m_AX12_pos, pyInt_ax_neg10]
  · rw [d2m_AX12_pos, pyInt_ax_10000]
  · unfold LS5.angle_deg_to_ax_position
    rw [pyRound_ax_neg10]
    decide
  · unfold LS5.angle_deg_to_ax_position
    rw [pyRound_ax_10000]
    decide

/-- Claim C10: the 2-byte little-endian encoder is total on all integers,
reduces its argument modulo 2^16, and emits exactly the two little-endian
bytes of `v mod 65536` (each a valid byte). -/
theorem claim_C10_encoder_wraps (v : ℤ) :
    (Robot.get_little_endian_bytes v).length = 2 ∧
    (∀ b ∈ Robot.get_little_endian_bytes v, b < 256) ∧
    ((decodeLE2 (Robot.get_little_endian_bytes v) : ℤ) = v % 65536) := by
  refine ⟨rfl, ?_, decodeLE2_le_int v⟩
  intro b hb
  have h2 : v % 65536 < 65536 := Int.emod_lt_of_pos v (by norm_num)
  have h0 : 0 ≤ v % 65536 := Int.emod_nonneg v (by norm_num)
  simp [Robot.get_little_endian_bytes] at hb
  rcases hb with hb | hb <;> omega

end USBlsx
